import Mathlib

/-!
# ctts-phonemize: the Python binding layer (`src/python.cpp`)

A shallow embedding of the eight functions exported by the binding and of the
three process-wide variables they use (`eSpeakInitialized`, `tashkeelStates`
and the library's `ctts::DEFAULT_ALPHABET`).

The binding is glue over code that lives in other translation units
(`espeak_Initialize`, `ctts::phonemize_eSpeak`, `ctts::phonemize_codepoints`,
`phonemes_to_ids`, `tashkeel::tashkeel_load`, `tashkeel::tashkeel_run`).  Those
callees are taken as parameters, bundled in `Library`.  Each one is an
arbitrary deterministic transition over an abstract external world `W`
(file system, engine internals), so that two calls with the same arguments may
give different answers, and each one that can throw returns an `Except`.

Every call of an external function is appended to a log kept in the process
state; the log is instrumentation only and is never read by the embedded code.
-/

namespace CttsPhonemize

/-! ## `std::map` -/

/-- A `std::map<κ, ν>`: the entries in key order. -/
abbrev StdMap (κ ν : Type) := List (κ × ν)

/-- The keys of a map. -/
def StdMap.keys {κ ν : Type} (m : StdMap κ ν) : List κ := m.map Prod.fst

/-- Lookup, `std::map::find`. -/
def StdMap.find {κ ν : Type} [DecidableEq κ] : StdMap κ ν → κ → Option ν
  | [], _ => none
  | (k', v) :: m, k => if k' = k then some v else StdMap.find m k

/-- Number of entries with the given key, `std::map::count`: 0 or 1. -/
def StdMap.count {κ ν : Type} [DecidableEq κ] (m : StdMap κ ν) (k : κ) : Nat :=
  match StdMap.find m k with
  | some _ => 1
  | none => 0

/-- Insertion of a fresh key at its place in key order. -/
def StdMap.insertNew {κ ν : Type} [LT κ] [DecidableRel (fun a b : κ => a < b)]
    (k : κ) (v : ν) : StdMap κ ν → StdMap κ ν
  | [] => [(k, v)]
  | (k', v') :: m =>
    if k < k' then (k, v) :: (k', v') :: m else (k', v') :: StdMap.insertNew k v m

/-- Overwrite the value stored under a key that is present. -/
def StdMap.overwrite {κ ν : Type} [DecidableEq κ] (k : κ) (v : ν) : StdMap κ ν → StdMap κ ν
  | [] => []
  | (k', v') :: m => if k' = k then (k', v) :: m else (k', v') :: StdMap.overwrite k v m

/-- Reading `m[k]`, `std::map::operator[]`: the mapped value, together with the
map afterwards; a key that is absent is first inserted with a
default-constructed value. -/
def StdMap.subscript {κ ν : Type} [DecidableEq κ] [LT κ] [DecidableRel (fun a b : κ => a < b)]
    [Inhabited ν] (m : StdMap κ ν) (k : κ) : ν × StdMap κ ν :=
  match StdMap.find m k with
  | some v => (v, m)
  | none => (default, StdMap.insertNew k default m)

/-- Writing `m[k] = v`: `operator[]` followed by assignment through the
returned reference. -/
def StdMap.assign {κ ν : Type} [DecidableEq κ] [LT κ] [DecidableRel (fun a b : κ => a < b)]
    [Inhabited ν] (m : StdMap κ ν) (k : κ) (v : ν) : StdMap κ ν :=
  StdMap.overwrite k v (StdMap.subscript m k).2

/-! ## Exceptions, library types, the log -/

/-- An exception leaving a binding function: either raised by a `throw`
statement of the binding itself (`std::runtime_error` with its message) or
raised inside a callee and propagated unchanged. -/
inductive Exn where
  | runtime_error (what : String)
  | propagated (what : String)
  deriving DecidableEq, Repr

/-- Turn a callee's outcome into the binding's outcome: nothing is caught. -/
def propagate {α : Type} : Except String α → Except Exn α
  | .ok a => .ok a
  | .error e => .error (Exn.propagated e)

/-- The enumeration `ctts::TextCasing`. -/
inductive TextCasing where
  | CASING_IGNORE
  | CASING_LOWER
  | CASING_UPPER
  | CASING_FOLD
  deriving DecidableEq, Repr

/-- The part of `ctts::eSpeakPhonemeConfig` the binding writes. -/
structure eSpeakPhonemeConfig where
  voice : String
  deriving DecidableEq, Repr

/-- The part of `ctts::CodepointsPhonemeConfig` the binding writes. -/
structure CodepointsPhonemeConfig where
  casing : TextCasing
  deriving DecidableEq, Repr

/-- The part of `ctts::PhonemeIdConfig` the binding writes; `M` is
`ctts::PhonemeIdMap`. -/
structure PhonemeIdConfig (M : Type) where
  phonemeIdMap : M

/-- One call of an external function, as recorded in the log. -/
inductive Event where
  | espeak_Initialize (dataPath : String) (result : Int)
  | phonemize_eSpeak (text voice : String)
  | phonemize_codepoints (text : String) (casing : TextCasing)
  | phonemes_to_ids
  | tashkeel_load (modelPath : String)
  | tashkeel_run (text : String)
  deriving DecidableEq, Repr

/-- The code outside `python.cpp`.  `W` is the external world, `S` is
`tashkeel::State`, `P` is `ctts::Phoneme`, `I` is `ctts::PhonemeId`, `M` is
`ctts::PhonemeIdMap`.  A function with an output parameter takes the value the
parameter has at the call and returns the value it has at the return. -/
structure Library (W S P I M : Type) where
  /-- The call `espeak_Initialize(AUDIO_OUTPUT_SYNCHRONOUS, 0, path, 0)`. -/
  espeak_Initialize : String → W → Int × W
  /-- The call `ctts::phonemize_eSpeak(text, config, phonemes)`. -/
  phonemize_eSpeak : String → eSpeakPhonemeConfig → List (List P) → W →
    Except String (List (List P)) × W
  /-- The call `ctts::phonemize_codepoints(text, config, phonemes)`. -/
  phonemize_codepoints : String → CodepointsPhonemeConfig → List (List P) → W →
    Except String (List (List P)) × W
  /-- The call `phonemes_to_ids(phonemes, config, phonemeIds, missingPhonemes)`. -/
  phonemes_to_ids : List P → PhonemeIdConfig M → List I → StdMap P Nat → W →
    Except String (List I × StdMap P Nat) × W
  /-- The call `tashkeel::tashkeel_load(modelPath, state)`. -/
  tashkeel_load : String → S → W → Except String S × W
  /-- The call `tashkeel::tashkeel_run(text, state)`; the state is passed by reference. -/
  tashkeel_run : String → S → W → Except String String × S × W
  /-- The default member initialiser of `CodepointsPhonemeConfig`. -/
  defaultCodepointsConfig : CodepointsPhonemeConfig
  /-- The default member initialiser of `PhonemeIdConfig`. -/
  defaultPhonemeIdConfig : PhonemeIdConfig M
  /-- The constant `ctts::MAX_PHONEMES`. -/
  MAX_PHONEMES : Nat
  /-- The table `ctts::DEFAULT_PHONEME_ID_MAP`. -/
  DEFAULT_PHONEME_ID_MAP : M

/-- The process-wide variables, the external world and the log. -/
structure Process (W S M : Type) where
  eSpeakInitialized : Bool
  tashkeelStates : StdMap String S
  DEFAULT_ALPHABET : StdMap String M
  world : W
  log : List Event

/-- The process at start-up: the flag is false and the diacritic cache is
empty; nothing has been logged. -/
def Process.initial {W S M : Type} (alphabet : StdMap String M) (w : W) : Process W S M :=
  { eSpeakInitialized := false, tashkeelStates := [], DEFAULT_ALPHABET := alphabet,
    world := w, log := [] }

/-! ## The binding functions -/

section Binding

variable {W S P I M : Type}

/-- Lines 41-47 of `phonemize_espeak`: build the configuration with the given
voice and run the engine on the text. -/
def phonemize_espeak_engine (lib : Library W S P I M) (text voice : String)
    (p : Process W S M) : Except Exn (List (List P)) × Process W S M :=
  let config : eSpeakPhonemeConfig := { voice := voice }
  let r := lib.phonemize_eSpeak text config [] p.world
  (propagate r.1,
   { p with world := r.2, log := p.log ++ [Event.phonemize_eSpeak text voice] })

/-- The function `phonemize_espeak` (lines 29-48). -/
def phonemize_espeak (lib : Library W S P I M) (text voice dataPath : String)
    (p : Process W S M) : Except Exn (List (List P)) × Process W S M :=
  if !p.eSpeakInitialized then
    let r := lib.espeak_Initialize dataPath p.world
    let p1 : Process W S M :=
      { p with world := r.2, log := p.log ++ [Event.espeak_Initialize dataPath r.1] }
    if r.1 < 0 then
      (.error (Exn.runtime_error "Failed to initialize eSpeak"), p1)
    else
      phonemize_espeak_engine lib text voice { p1 with eSpeakInitialized := true }
  else
    phonemize_espeak_engine lib text voice p

/-- Lines 52-62 of `phonemize_codepoints`: the configuration after the chain of
string comparisons. -/
def phonemize_codepoints_config (lib : Library W S P I M) (casing : String) :
    CodepointsPhonemeConfig :=
  let config := lib.defaultCodepointsConfig
  if casing = "ignore" then { config with casing := TextCasing.CASING_IGNORE }
  else if casing = "lower" then { config with casing := TextCasing.CASING_LOWER }
  else if casing = "upper" then { config with casing := TextCasing.CASING_UPPER }
  else if casing = "fold" then { config with casing := TextCasing.CASING_FOLD }
  else config

/-- The function `phonemize_codepoints` (lines 50-69). -/
def phonemize_codepoints (lib : Library W S P I M) (text casing : String)
    (p : Process W S M) : Except Exn (List (List P)) × Process W S M :=
  let config := phonemize_codepoints_config lib casing
  let r := lib.phonemize_codepoints text config [] p.world
  (propagate r.1,
   { p with world := r.2, log := p.log ++ [Event.phonemize_codepoints text config.casing] })

/-- The function `phoneme_ids_espeak` (lines 71-80). -/
def phoneme_ids_espeak (lib : Library W S P I M) (phonemes : List P)
    (p : Process W S M) : Except Exn (List I × StdMap P Nat) × Process W S M :=
  let config := lib.defaultPhonemeIdConfig
  let r := lib.phonemes_to_ids phonemes config [] [] p.world
  (propagate r.1, { p with world := r.2, log := p.log ++ [Event.phonemes_to_ids] })

/-- The function `phoneme_ids_codepoints` (lines 82-98). -/
def phoneme_ids_codepoints [Inhabited M] (lib : Library W S P I M) (language : String)
    (phonemes : List P) (p : Process W S M) :
    Except Exn (List I × StdMap P Nat) × Process W S M :=
  if StdMap.count p.DEFAULT_ALPHABET language < 1 then
    (.error (Exn.runtime_error "No phoneme/id map for language"), p)
  else
    let sub := StdMap.subscript p.DEFAULT_ALPHABET language
    let config : PhonemeIdConfig M := { lib.defaultPhonemeIdConfig with phonemeIdMap := sub.1 }
    let r := lib.phonemes_to_ids phonemes config [] [] p.world
    (propagate r.1,
     { p with DEFAULT_ALPHABET := sub.2, world := r.2,
              log := p.log ++ [Event.phonemes_to_ids] })

/-- The function `get_max_phonemes` (line 100). -/
def get_max_phonemes (lib : Library W S P I M) (p : Process W S M) : Nat × Process W S M :=
  (lib.MAX_PHONEMES, p)

/-- The function `get_espeak_map` (line 102). -/
def get_espeak_map (lib : Library W S P I M) (p : Process W S M) : M × Process W S M :=
  (lib.DEFAULT_PHONEME_ID_MAP, p)

/-- The function `get_codepoints_map` (lines 104-106): a copy of the registry. -/
def get_codepoints_map (_lib : Library W S P I M) (p : Process W S M) :
    StdMap String M × Process W S M :=
  (p.DEFAULT_ALPHABET, p)

/-- Line 115 of `tashkeel_run`: run the restoration on the cached state of the
path, which the callee receives by reference. -/
def tashkeel_run_cached [Inhabited S] (lib : Library W S P I M) (modelPath text : String)
    (p : Process W S M) : Except Exn String × Process W S M :=
  let sub := StdMap.subscript p.tashkeelStates modelPath
  let r := lib.tashkeel_run text sub.1 p.world
  (propagate r.1,
   { p with tashkeelStates := StdMap.overwrite modelPath r.2.1 sub.2, world := r.2.2,
            log := p.log ++ [Event.tashkeel_run text] })

/-- The function `tashkeel_run` (lines 108-116). -/
def tashkeel_run [Inhabited S] (lib : Library W S P I M) (modelPath text : String)
    (p : Process W S M) : Except Exn String × Process W S M :=
  if StdMap.count p.tashkeelStates modelPath < 1 then
    let newState : S := default
    let r := lib.tashkeel_load modelPath newState p.world
    let p1 : Process W S M :=
      { p with world := r.2, log := p.log ++ [Event.tashkeel_load modelPath] }
    match r.1 with
    | .error e => (.error (Exn.propagated e), p1)
    | .ok loaded =>
      tashkeel_run_cached lib modelPath text
        { p1 with tashkeelStates := StdMap.assign p1.tashkeelStates modelPath loaded }
  else
    tashkeel_run_cached lib modelPath text p

/-! ## Sequences of calls -/

/-- The arguments of one call of `phonemize_espeak`. -/
structure EspeakCall where
  text : String
  voice : String
  dataPath : String
  deriving DecidableEq, Repr

/-- Run calls of `phonemize_espeak` one after the other; the outcomes are
returned in call order, with the final process. -/
def runEspeakCalls (lib : Library W S P I M) :
    List EspeakCall → Process W S M → List (Except Exn (List (List P))) × Process W S M
  | [], p => ([], p)
  | c :: cs, p =>
    let r := phonemize_espeak lib c.text c.voice c.dataPath p
    let rest := runEspeakCalls lib cs r.2
    (r.1 :: rest.1, rest.2)

end Binding

/-! ## Observations on outcomes and logs -/

/-- The event is a call of `espeak_Initialize` that returned a non-negative
result. -/
def isSuccessfulInit : Event → Bool
  | Event.espeak_Initialize _ result => decide (0 ≤ result)
  | _ => false

/-- The event is a call of the engine phonemizer `ctts::phonemize_eSpeak`. -/
def isEngineCall : Event → Bool
  | Event.phonemize_eSpeak _ _ => true
  | _ => false

/-- Every call of the engine phonemizer in the log comes after a call of
`espeak_Initialize` that returned a non-negative result. -/
def EngineGuarded (log : List Event) : Prop :=
  ∀ (before after : List Event) (e : Event), log = before ++ e :: after →
    isEngineCall e = true → ∃ i ∈ before, isSuccessfulInit i = true

/-- The two facts kept by every call: the engine is only called after a
successful initialisation, and a true flag records one. -/
def EspeakInvariant {W S M : Type} (p : Process W S M) : Prop :=
  EngineGuarded p.log ∧ (p.eSpeakInitialized = true → ∃ i ∈ p.log, isSuccessfulInit i = true)

/-- The tokens the casing chain of `phonemize_codepoints` compares with. -/
def casingTokens : List String := ["ignore", "lower", "upper", "fold"]

/-! ## A concrete library, for evaluating the binding on explicit inputs -/

/-- Case conversion of the stand-in codepoint phonemizer. -/
def demoCasing : TextCasing → List Char → List Char
  | TextCasing.CASING_IGNORE, cs => cs
  | TextCasing.CASING_LOWER, cs => cs.map Char.toLower
  | TextCasing.CASING_UPPER, cs => cs.map Char.toUpper
  | TextCasing.CASING_FOLD, cs => cs.map Char.toLower

/-- Id lookup of the stand-in id mapper: ids of the phonemes found, in order,
and the number of times each phoneme was missed. -/
def demoIds (m : StdMap Char Nat) : List Char → List Nat × StdMap Char Nat →
    List Nat × StdMap Char Nat
  | [], acc => acc
  | c :: cs, acc =>
    match StdMap.find m c with
    | some i => demoIds m cs (acc.1 ++ [i], acc.2)
    | none =>
      demoIds m cs (acc.1, StdMap.assign acc.2 c ((StdMap.subscript acc.2 c).1 + 1))

/-- A stand-in for the code outside `python.cpp`.  The world counts the
external calls made so far; the engine initialises only from the data path
`"/usr/share/espeak-ng-data"`; a model loads only from `"model.ort"`. -/
def demoLibrary : Library Nat String Char Nat (StdMap Char Nat) where
  espeak_Initialize := fun dataPath w =>
    (if dataPath = "/usr/share/espeak-ng-data" then 22050 else -1, w + 1)
  phonemize_eSpeak := fun text _ phonemes w => (.ok (phonemes ++ [text.data]), w + 1)
  phonemize_codepoints := fun text config phonemes w =>
    (.ok (phonemes ++ [demoCasing config.casing text.data]), w + 1)
  phonemes_to_ids := fun phonemes config ids missing w =>
    (.ok (demoIds config.phonemeIdMap phonemes (ids, missing)), w + 1)
  tashkeel_load := fun modelPath _ w =>
    (if modelPath = "model.ort" then .ok modelPath else .error "cannot open model", w + 1)
  tashkeel_run := fun text state w => (.ok text, state, w + 1)
  defaultCodepointsConfig := { casing := TextCasing.CASING_FOLD }
  defaultPhonemeIdConfig := { phonemeIdMap := [('a', 3)] }
  MAX_PHONEMES := 256
  DEFAULT_PHONEME_ID_MAP := [('a', 3)]

/-- A registry with one language, for the stand-in library. -/
def demoAlphabet : StdMap String (StdMap Char Nat) := [("en", [('a', 3), ('b', 4)])]

/-- The stand-in process at start-up. -/
def demoProcess : Process Nat String (StdMap Char Nat) := Process.initial demoAlphabet 0

/-! ## Facts about `std::map` -/

section MapFacts

variable {κ ν : Type} [DecidableEq κ]

theorem StdMap.find_eq_none_iff (m : StdMap κ ν) (k : κ) :
    StdMap.find m k = none ↔ k ∉ StdMap.keys m := by
  induction m with
  | nil => simp [StdMap.find, StdMap.keys]
  | cons e m ih =>
    obtain ⟨k', v⟩ := e
    by_cases h : k' = k
    · simp [StdMap.find, StdMap.keys, h]
    · have h' : ¬ k = k' := fun e => h e.symm
      simpa [StdMap.find, StdMap.keys, h, h'] using ih

theorem StdMap.count_lt_one_iff (m : StdMap κ ν) (k : κ) :
    StdMap.count m k < 1 ↔ k ∉ StdMap.keys m := by
  rw [← StdMap.find_eq_none_iff]
  unfold StdMap.count
  cases StdMap.find m k <;> simp

theorem StdMap.find_isSome_of_count (m : StdMap κ ν) (k : κ) (h : ¬ StdMap.count m k < 1) :
    ∃ v, StdMap.find m k = some v := by
  unfold StdMap.count at h
  cases hf : StdMap.find m k with
  | none => simp [hf] at h
  | some v => exact ⟨v, rfl⟩

theorem StdMap.find_overwrite_self (m : StdMap κ ν) (k : κ) (v v0 : ν)
    (h : StdMap.find m k = some v0) : StdMap.find (StdMap.overwrite k v m) k = some v := by
  induction m with
  | nil => simp [StdMap.find] at h
  | cons e m ih =>
    obtain ⟨k', v'⟩ := e
    by_cases hk : k' = k
    · simp [StdMap.overwrite, StdMap.find, hk]
    · simp only [StdMap.find, hk, if_false] at h
      simp [StdMap.overwrite, StdMap.find, hk, ih h]

theorem StdMap.count_of_find (m : StdMap κ ν) (k : κ) (v : ν)
    (h : StdMap.find m k = some v) : ¬ StdMap.count m k < 1 := by
  simp [StdMap.count, h]

variable [LT κ] [DecidableRel (fun a b : κ => a < b)]

theorem StdMap.subscript_of_find [Inhabited ν] (m : StdMap κ ν) (k : κ) (v : ν)
    (h : StdMap.find m k = some v) : StdMap.subscript m k = (v, m) := by
  simp [StdMap.subscript, h]

theorem StdMap.find_insertNew_self (m : StdMap κ ν) (k : κ) (v : ν)
    (h : StdMap.find m k = none) : StdMap.find (StdMap.insertNew k v m) k = some v := by
  induction m with
  | nil => simp [StdMap.insertNew, StdMap.find]
  | cons e m ih =>
    obtain ⟨k', v'⟩ := e
    by_cases hk : k' = k
    · simp [StdMap.find, hk] at h
    · simp only [StdMap.find, hk, if_false] at h
      by_cases hlt : k < k'
      · simp [StdMap.insertNew, hlt, StdMap.find]
      · simp [StdMap.insertNew, hlt, StdMap.find, hk, ih h]

theorem StdMap.find_subscript_self [Inhabited ν] (m : StdMap κ ν) (k : κ) :
    ∃ v, StdMap.find (StdMap.subscript m k).2 k = some v := by
  cases hf : StdMap.find m k with
  | none =>
    exact ⟨default, by simp [StdMap.subscript, hf, StdMap.find_insertNew_self m k default hf]⟩
  | some v => exact ⟨v, by simp [StdMap.subscript, hf]⟩

theorem StdMap.find_assign_self [Inhabited ν] (m : StdMap κ ν) (k : κ) (v : ν) :
    StdMap.find (StdMap.assign m k v) k = some v := by
  obtain ⟨v0, h0⟩ := StdMap.find_subscript_self m k
  exact StdMap.find_overwrite_self _ k v v0 h0

/-- On a key that is absent, reading `m[k]` adds the key: the guard in front of
the subscript matters. -/
theorem StdMap.subscript_absent_adds_key [Inhabited ν] (m : StdMap κ ν) (k : κ)
    (h : k ∉ StdMap.keys m) : k ∈ StdMap.keys (StdMap.subscript m k).2 := by
  have hf := (StdMap.find_eq_none_iff m k).2 h
  have h1 : StdMap.find (StdMap.subscript m k).2 k = some default := by
    simp [StdMap.subscript, hf, StdMap.find_insertNew_self m k default hf]
  by_contra hc
  rw [← StdMap.find_eq_none_iff] at hc
  simp [hc] at h1

end MapFacts

theorem propagate_ne_runtime_error {α : Type} (r : Except String α) (what : String) :
    propagate r ≠ Except.error (Exn.runtime_error what) := by
  cases r <;> simp [propagate]

/-! ## The codepoints registry -/

section Registry

variable {W S P I M : Type} [Inhabited M]

/-- C1: `phoneme_ids_codepoints` fails with the binding's own "No phoneme/id
map for language" error exactly when the language is not a key of
`DEFAULT_ALPHABET`; whether it does is the same for every phoneme sequence;
and when the language is a key, the outcome is whatever `phonemes_to_ids`
produces, called on the phonemes with the map registered for the language, so
the binding raises nothing of its own. -/
theorem phoneme_ids_codepoints_unknown_language (lib : Library W S P I M) (language : String)
    (phonemes : List P) (p : Process W S M) :
    ((phoneme_ids_codepoints lib language phonemes p).1
        = Except.error (Exn.runtime_error "No phoneme/id map for language")
      ↔ language ∉ StdMap.keys p.DEFAULT_ALPHABET)
    ∧ (∀ phonemes' : List P,
        ((phoneme_ids_codepoints lib language phonemes' p).1
            = Except.error (Exn.runtime_error "No phoneme/id map for language")
          ↔ (phoneme_ids_codepoints lib language phonemes p).1
            = Except.error (Exn.runtime_error "No phoneme/id map for language")))
    ∧ (language ∈ StdMap.keys p.DEFAULT_ALPHABET →
        ∃ m, StdMap.find p.DEFAULT_ALPHABET language = some m
          ∧ (phoneme_ids_codepoints lib language phonemes p).1
            = propagate (lib.phonemes_to_ids phonemes { phonemeIdMap := m } [] [] p.world).1) := by
  have key : ∀ ph : List P,
      ((phoneme_ids_codepoints lib language ph p).1
          = Except.error (Exn.runtime_error "No phoneme/id map for language")
        ↔ language ∉ StdMap.keys p.DEFAULT_ALPHABET) := by
    intro ph
    rw [← StdMap.count_lt_one_iff]
    by_cases h : StdMap.count p.DEFAULT_ALPHABET language < 1
    · simp [phoneme_ids_codepoints, h]
    · simp only [phoneme_ids_codepoints, h, if_false, iff_false]
      exact propagate_ne_runtime_error _ _
  refine ⟨key phonemes, fun ph => (key ph).trans (key phonemes).symm, ?_⟩
  intro hmem
  have hc : ¬ StdMap.count p.DEFAULT_ALPHABET language < 1 := by
    rw [StdMap.count_lt_one_iff]; exact fun h => h hmem
  obtain ⟨m, hm⟩ := StdMap.find_isSome_of_count _ _ hc
  refine ⟨m, hm, ?_⟩
  simp [phoneme_ids_codepoints, hc, StdMap.subscript_of_find _ _ _ hm]

/-- C7: `phoneme_ids_codepoints` leaves `DEFAULT_ALPHABET` as it found it, for
every language tag and phoneme sequence and whether it fails or returns; and
`get_codepoints_map`, `get_espeak_map` and `get_max_phonemes` leave the whole
process as it was. -/
theorem registry_unchanged (lib : Library W S P I M) (language : String)
    (phonemes : List P) (p : Process W S M) :
    (phoneme_ids_codepoints lib language phonemes p).2.DEFAULT_ALPHABET = p.DEFAULT_ALPHABET
    ∧ (get_codepoints_map lib p).2 = p
    ∧ (get_espeak_map lib p).2 = p
    ∧ (get_max_phonemes lib p).2 = p := by
  refine ⟨?_, rfl, rfl, rfl⟩
  by_cases h : StdMap.count p.DEFAULT_ALPHABET language < 1
  · simp [phoneme_ids_codepoints, h]
  · obtain ⟨m, hm⟩ := StdMap.find_isSome_of_count _ _ h
    simp [phoneme_ids_codepoints, h, StdMap.subscript_of_find _ _ _ hm]

end Registry

/-! ## Codepoint phonemization -/

section Codepoints

variable {W S P I M : Type}

/-- C8: with the token "ignore", "lower", "upper" or "fold",
`phonemize_codepoints` runs the library phonemizer on the same text, on an
empty output, with casing `CASING_IGNORE`, `CASING_LOWER`, `CASING_UPPER` or
`CASING_FOLD`, and returns the very sequence of sequences the library
produced; an exception of the library leaves the binding as it was thrown.  The
comparison is of whole strings, so a token in another letter case selects none
of the four. -/
theorem phonemize_codepoints_known_token (lib : Library W S P I M) (text : String)
    (p : Process W S M) :
    ((∀ phonemes, (lib.phonemize_codepoints text
            { lib.defaultCodepointsConfig with casing := TextCasing.CASING_IGNORE }
            [] p.world).1 = Except.ok phonemes →
          (phonemize_codepoints lib text "ignore" p).1 = Except.ok phonemes)
      ∧ (∀ what, (lib.phonemize_codepoints text
            { lib.defaultCodepointsConfig with casing := TextCasing.CASING_IGNORE }
            [] p.world).1 = Except.error what →
          (phonemize_codepoints lib text "ignore" p).1
            = Except.error (Exn.propagated what)))
    ∧ ((∀ phonemes, (lib.phonemize_codepoints text
            { lib.defaultCodepointsConfig with casing := TextCasing.CASING_LOWER }
            [] p.world).1 = Except.ok phonemes →
          (phonemize_codepoints lib text "lower" p).1 = Except.ok phonemes)
      ∧ (∀ what, (lib.phonemize_codepoints text
            { lib.defaultCodepointsConfig with casing := TextCasing.CASING_LOWER }
            [] p.world).1 = Except.error what →
          (phonemize_codepoints lib text "lower" p).1
            = Except.error (Exn.propagated what)))
    ∧ ((∀ phonemes, (lib.phonemize_codepoints text
            { lib.defaultCodepointsConfig with casing := TextCasing.CASING_UPPER }
            [] p.world).1 = Except.ok phonemes →
          (phonemize_codepoints lib text "upper" p).1 = Except.ok phonemes)
      ∧ (∀ what, (lib.phonemize_codepoints text
            { lib.defaultCodepointsConfig with casing := TextCasing.CASING_UPPER }
            [] p.world).1 = Except.error what →
          (phonemize_codepoints lib text "upper" p).1
            = Except.error (Exn.propagated what)))
    ∧ ((∀ phonemes, (lib.phonemize_codepoints text
            { lib.defaultCodepointsConfig with casing := TextCasing.CASING_FOLD }
            [] p.world).1 = Except.ok phonemes →
          (phonemize_codepoints lib text "fold" p).1 = Except.ok phonemes)
      ∧ (∀ what, (lib.phonemize_codepoints text
            { lib.defaultCodepointsConfig with casing := TextCasing.CASING_FOLD }
            [] p.world).1 = Except.error what →
          (phonemize_codepoints lib text "fold" p).1
            = Except.error (Exn.propagated what)))
    ∧ phonemize_codepoints_config lib "Lower" = lib.defaultCodepointsConfig := by
  have ignore : phonemize_codepoints_config lib "ignore"
      = { lib.defaultCodepointsConfig with casing := TextCasing.CASING_IGNORE } := by
    simp [phonemize_codepoints_config]
  have lower : phonemize_codepoints_config lib "lower"
      = { lib.defaultCodepointsConfig with casing := TextCasing.CASING_LOWER } := by
    simp [phonemize_codepoints_config]
  have upper : phonemize_codepoints_config lib "upper"
      = { lib.defaultCodepointsConfig with casing := TextCasing.CASING_UPPER } := by
    simp [phonemize_codepoints_config]
  have fold : phonemize_codepoints_config lib "fold"
      = { lib.defaultCodepointsConfig with casing := TextCasing.CASING_FOLD } := by
    simp [phonemize_codepoints_config]
  have other : phonemize_codepoints_config lib "Lower" = lib.defaultCodepointsConfig := by
    simp [phonemize_codepoints_config]
  have run : ∀ token : String,
      (phonemize_codepoints lib text token p).1
        = propagate (lib.phonemize_codepoints text (phonemize_codepoints_config lib token)
            [] p.world).1 := fun _ => rfl
  refine ⟨⟨?_, ?_⟩, ⟨?_, ?_⟩, ⟨?_, ?_⟩, ⟨?_, ?_⟩, other⟩
  · intro phonemes h; rw [run, ignore, h]; rfl
  · intro what h; rw [run, ignore, h]; rfl
  · intro phonemes h; rw [run, lower, h]; rfl
  · intro what h; rw [run, lower, h]; rfl
  · intro phonemes h; rw [run, upper, h]; rfl
  · intro what h; rw [run, upper, h]; rfl
  · intro phonemes h; rw [run, fold, h]; rfl
  · intro what h; rw [run, fold, h]; rfl

/-- C8 on the stand-in library: "Abc" with "lower" gives the phonemes a, b, c
and with "ignore" the phonemes A, b, c, as the library produced them. -/
theorem phonemize_codepoints_known_token_witness :
    (phonemize_codepoints demoLibrary "Abc" "lower" demoProcess).1
        = Except.ok [['a', 'b', 'c']]
    ∧ (phonemize_codepoints demoLibrary "Abc" "ignore" demoProcess).1
        = Except.ok [['A', 'b', 'c']] :=
  ⟨(phonemize_codepoints_known_token demoLibrary "Abc" demoProcess).2.1.1 _ rfl,
   (phonemize_codepoints_known_token demoLibrary "Abc" demoProcess).1.1 _ rfl⟩

/-- C2, as the code has it: a token that is none of the four leaves the
configuration at its default, and `phonemize_codepoints` returns what the
library phonemizer produces on the text with that default configuration; the
binding raises no error of its own. -/
theorem phonemize_codepoints_unknown_token (lib : Library W S P I M) (text casing : String)
    (p : Process W S M) (h : casing ∉ casingTokens) :
    (phonemize_codepoints lib text casing p).1
        = propagate (lib.phonemize_codepoints text lib.defaultCodepointsConfig [] p.world).1
    ∧ ∀ what, (phonemize_codepoints lib text casing p).1
        ≠ Except.error (Exn.runtime_error what) := by
  simp only [casingTokens, List.mem_cons, List.mem_singleton, not_or, List.mem_nil_iff,
    or_false] at h
  obtain ⟨h1, h2, h3, h4⟩ := h
  have hc : phonemize_codepoints_config lib casing = lib.defaultCodepointsConfig := by
    simp [phonemize_codepoints_config, h1, h2, h3, h4]
  have hr : (phonemize_codepoints lib text casing p).1
      = propagate (lib.phonemize_codepoints text lib.defaultCodepointsConfig [] p.world).1 := by
    simp [phonemize_codepoints, hc]
  exact ⟨hr, fun what => hr ▸ propagate_ne_runtime_error _ _⟩

/-- C2 witness: the token "LOWER" on the text "Abc". -/
theorem phonemize_codepoints_unknown_token_witness :
    "LOWER" ∉ casingTokens
    ∧ (phonemize_codepoints demoLibrary "Abc" "LOWER" demoProcess).1
        = propagate (demoLibrary.phonemize_codepoints "Abc"
            demoLibrary.defaultCodepointsConfig [] demoProcess.world).1 :=
  ⟨by decide, (phonemize_codepoints_unknown_token demoLibrary "Abc" "LOWER" demoProcess
    (by decide)).1⟩

/-- C2 counterexample: with the token "LOWER", which is none of the four,
`phonemize_codepoints` does not fail; it returns the phonemes of "Abc" under
the library's default casing. -/
theorem phonemize_codepoints_unknown_token_returns :
    "LOWER" ∉ casingTokens
    ∧ (phonemize_codepoints demoLibrary "Abc" "LOWER" demoProcess).1
        = Except.ok [['a', 'b', 'c']] := by
  refine ⟨by decide, ?_⟩
  rfl

end Codepoints

/-! ## The diacritic cache -/

section Tashkeel

variable {W S P I M : Type} [Inhabited S]

theorem tashkeel_run_of_cached (lib : Library W S P I M) (modelPath text : String)
    (p : Process W S M) (h : ¬ StdMap.count p.tashkeelStates modelPath < 1) :
    tashkeel_run lib modelPath text p = tashkeel_run_cached lib modelPath text p := by
  simp [tashkeel_run, h]

theorem tashkeel_run_cached_log (lib : Library W S P I M) (modelPath text : String)
    (p : Process W S M) :
    (tashkeel_run_cached lib modelPath text p).2.log = p.log ++ [Event.tashkeel_run text] := by
  simp [tashkeel_run_cached]

theorem tashkeel_run_cached_keeps_key (lib : Library W S P I M) (modelPath text : String)
    (p : Process W S M) :
    ¬ StdMap.count (tashkeel_run_cached lib modelPath text p).2.tashkeelStates modelPath < 1 := by
  obtain ⟨v0, h0⟩ := StdMap.find_subscript_self p.tashkeelStates modelPath
  exact StdMap.count_of_find _ _ _
    (StdMap.find_overwrite_self _ modelPath
      (lib.tashkeel_run text (StdMap.subscript p.tashkeelStates modelPath).1 p.world).2.1 v0 h0)

theorem tashkeel_run_of_loaded (lib : Library W S P I M) (modelPath text : String)
    (p : Process W S M) (loaded : S) (h : StdMap.count p.tashkeelStates modelPath < 1)
    (hl : (lib.tashkeel_load modelPath default p.world).1 = Except.ok loaded) :
    tashkeel_run lib modelPath text p
      = tashkeel_run_cached lib modelPath text
          { p with world := (lib.tashkeel_load modelPath default p.world).2,
                   log := p.log ++ [Event.tashkeel_load modelPath],
                   tashkeelStates := StdMap.assign p.tashkeelStates modelPath loaded } := by
  simp [tashkeel_run, h, hl]

theorem tashkeel_run_of_load_error (lib : Library W S P I M) (modelPath text what : String)
    (p : Process W S M) (h : StdMap.count p.tashkeelStates modelPath < 1)
    (hl : (lib.tashkeel_load modelPath default p.world).1 = Except.error what) :
    tashkeel_run lib modelPath text p
      = (Except.error (Exn.propagated what),
          { p with world := (lib.tashkeel_load modelPath default p.world).2,
                   log := p.log ++ [Event.tashkeel_load modelPath] }) := by
  simp [tashkeel_run, h, hl]

/-- C3, as the code has it: when the model path is already cached, or the load
performed by the first call succeeds, `tashkeel_run` on the path followed by
`tashkeel_run` on the same path calls `tashkeel_load` on it at most once in
total. -/
theorem tashkeel_run_twice_one_load (lib : Library W S P I M) (modelPath t1 t2 : String)
    (p : Process W S M)
    (h : modelPath ∈ StdMap.keys p.tashkeelStates
      ∨ ∃ loaded, (lib.tashkeel_load modelPath default p.world).1 = Except.ok loaded) :
    List.count (Event.tashkeel_load modelPath)
        (tashkeel_run lib modelPath t2 (tashkeel_run lib modelPath t1 p).2).2.log
      ≤ List.count (Event.tashkeel_load modelPath) p.log + 1 := by
  by_cases hc : StdMap.count p.tashkeelStates modelPath < 1
  · have hno : modelPath ∉ StdMap.keys p.tashkeelStates := (StdMap.count_lt_one_iff _ _).1 hc
    obtain ⟨loaded, hl⟩ := h.resolve_left hno
    rw [tashkeel_run_of_loaded lib modelPath t1 p loaded hc hl,
      tashkeel_run_of_cached lib modelPath t2 _ (tashkeel_run_cached_keeps_key _ _ _ _),
      tashkeel_run_cached_log, tashkeel_run_cached_log]
    simp
  · rw [tashkeel_run_of_cached lib modelPath t1 p hc,
      tashkeel_run_of_cached lib modelPath t2 _ (tashkeel_run_cached_keeps_key _ _ _ _),
      tashkeel_run_cached_log, tashkeel_run_cached_log]
    simp

/-- C3 witness: the path "model.ort", which the stand-in loader accepts, on the
empty cache. -/
theorem tashkeel_run_twice_one_load_witness :
    List.count (Event.tashkeel_load "model.ort")
        (tashkeel_run demoLibrary "model.ort" "b"
          (tashkeel_run demoLibrary "model.ort" "a" demoProcess).2).2.log
      ≤ List.count (Event.tashkeel_load "model.ort") demoProcess.log + 1 :=
  tashkeel_run_twice_one_load demoLibrary "model.ort" "a" "b" demoProcess
    (Or.inr ⟨"model.ort", rfl⟩)

/-- C3 counterexample: the stand-in loader rejects "missing.ort"; from the
empty cache the two calls of `tashkeel_run` on that path call `tashkeel_load`
on it twice. -/
theorem tashkeel_run_twice_two_loads :
    (tashkeel_run demoLibrary "missing.ort" "b"
        (tashkeel_run demoLibrary "missing.ort" "a" demoProcess).2).2.log
      = [Event.tashkeel_load "missing.ort", Event.tashkeel_load "missing.ort"]
    ∧ ¬ List.count (Event.tashkeel_load "missing.ort")
        (tashkeel_run demoLibrary "missing.ort" "b"
          (tashkeel_run demoLibrary "missing.ort" "a" demoProcess).2).2.log ≤ 1 := by
  have hlog : (tashkeel_run demoLibrary "missing.ort" "b"
        (tashkeel_run demoLibrary "missing.ort" "a" demoProcess).2).2.log
      = [Event.tashkeel_load "missing.ort", Event.tashkeel_load "missing.ort"] := rfl
  refine ⟨hlog, ?_⟩
  rw [hlog]
  decide

/-- C4: when the model path is not cached and loading it fails,
`tashkeel_run` fails with the loader's error, runs no restoration, and leaves
`tashkeelStates` exactly as it was: no entry is added and none is changed.  A
later `tashkeel_run` on any path therefore does what it does from the cache it
started with. -/
theorem tashkeel_run_load_failure (lib : Library W S P I M) (modelPath text what : String)
    (p : Process W S M) (hmiss : modelPath ∉ StdMap.keys p.tashkeelStates)
    (hfail : (lib.tashkeel_load modelPath default p.world).1 = Except.error what) :
    (tashkeel_run lib modelPath text p).1 = Except.error (Exn.propagated what)
    ∧ (tashkeel_run lib modelPath text p).2.tashkeelStates = p.tashkeelStates
    ∧ (tashkeel_run lib modelPath text p).2.log = p.log ++ [Event.tashkeel_load modelPath]
    ∧ ∀ q t : String,
        tashkeel_run lib q t (tashkeel_run lib modelPath text p).2
          = tashkeel_run lib q t
              { p with world := (tashkeel_run lib modelPath text p).2.world,
                       log := (tashkeel_run lib modelPath text p).2.log } := by
  have hc : StdMap.count p.tashkeelStates modelPath < 1 := (StdMap.count_lt_one_iff _ _).2 hmiss
  rw [tashkeel_run_of_load_error lib modelPath text what p hc hfail]
  exact ⟨rfl, rfl, rfl, fun _ _ => rfl⟩

/-- C4 witness: the path "missing.ort", which the stand-in loader rejects, on
the empty cache. -/
theorem tashkeel_run_load_failure_witness :
    (tashkeel_run demoLibrary "missing.ort" "a" demoProcess).1
        = Except.error (Exn.propagated "cannot open model")
    ∧ (tashkeel_run demoLibrary "missing.ort" "a" demoProcess).2.tashkeelStates
        = demoProcess.tashkeelStates :=
  have h := tashkeel_run_load_failure demoLibrary "missing.ort" "a" "cannot open model"
    demoProcess (by simp [demoProcess, Process.initial, StdMap.keys]) rfl
  ⟨h.1, h.2.1⟩

end Tashkeel

/-! ## One-time engine initialisation -/

section Espeak

variable {W S P I M : Type}

theorem phonemize_espeak_of_initialized (lib : Library W S P I M)
    (text voice dataPath : String) (p : Process W S M) (h : p.eSpeakInitialized = true) :
    phonemize_espeak lib text voice dataPath p = phonemize_espeak_engine lib text voice p := by
  simp [phonemize_espeak, h]

theorem phonemize_espeak_of_init_failed (lib : Library W S P I M)
    (text voice dataPath : String) (p : Process W S M) (h : p.eSpeakInitialized = false)
    (hr : (lib.espeak_Initialize dataPath p.world).1 < 0) :
    phonemize_espeak lib text voice dataPath p
      = (Except.error (Exn.runtime_error "Failed to initialize eSpeak"),
          { p with world := (lib.espeak_Initialize dataPath p.world).2,
                   log := p.log ++ [Event.espeak_Initialize dataPath
                     (lib.espeak_Initialize dataPath p.world).1] }) := by
  simp [phonemize_espeak, h, hr]

theorem phonemize_espeak_of_init_ok (lib : Library W S P I M)
    (text voice dataPath : String) (p : Process W S M) (h : p.eSpeakInitialized = false)
    (hr : ¬ (lib.espeak_Initialize dataPath p.world).1 < 0) :
    phonemize_espeak lib text voice dataPath p
      = phonemize_espeak_engine lib text voice
          { p with world := (lib.espeak_Initialize dataPath p.world).2,
                   log := p.log ++ [Event.espeak_Initialize dataPath
                     (lib.espeak_Initialize dataPath p.world).1],
                   eSpeakInitialized := true } := by
  simp [phonemize_espeak, h, hr]

/-- C5: once `eSpeakInitialized` is true, `phonemize_espeak` does the same
whatever data path it is given: same outcome and same process afterwards.  It
calls the engine phonemizer and nothing else, so `espeak_Initialize` is not
called, and the flag is still true afterwards. -/
theorem phonemize_espeak_ignores_dataPath (lib : Library W S P I M)
    (text voice dataPath1 dataPath2 : String) (p : Process W S M)
    (h : p.eSpeakInitialized = true) :
    phonemize_espeak lib text voice dataPath1 p = phonemize_espeak lib text voice dataPath2 p
    ∧ (phonemize_espeak lib text voice dataPath1 p).2.log
        = p.log ++ [Event.phonemize_eSpeak text voice]
    ∧ (phonemize_espeak lib text voice dataPath1 p).2.eSpeakInitialized = true := by
  rw [phonemize_espeak_of_initialized lib text voice dataPath1 p h,
    phonemize_espeak_of_initialized lib text voice dataPath2 p h]
  exact ⟨rfl, rfl, h⟩

/-- C5 witness: the stand-in process after a first call that initialised the
engine; a later call with another data path. -/
theorem phonemize_espeak_ignores_dataPath_witness :
    phonemize_espeak demoLibrary "hi" "en-us" "/usr/share/espeak-ng-data"
        (phonemize_espeak demoLibrary "a" "en-us" "/usr/share/espeak-ng-data" demoProcess).2
      = phonemize_espeak demoLibrary "hi" "en-us" "/nowhere"
        (phonemize_espeak demoLibrary "a" "en-us" "/usr/share/espeak-ng-data" demoProcess).2 :=
  (phonemize_espeak_ignores_dataPath demoLibrary "hi" "en-us" "/usr/share/espeak-ng-data"
    "/nowhere"
    (phonemize_espeak demoLibrary "a" "en-us" "/usr/share/espeak-ng-data" demoProcess).2
    rfl).1

theorem EngineGuarded.nil : EngineGuarded [] := by
  intro before after e h
  simp at h

theorem EngineGuarded.append_one (log : List Event) (x : Event) (hg : EngineGuarded log)
    (hx : isEngineCall x = true → ∃ i ∈ log, isSuccessfulInit i = true) :
    EngineGuarded (log ++ [x]) := by
  intro before after e hsplit he
  rcases List.eq_nil_or_concat after with hnil | ⟨front, z, hz⟩
  · subst hnil
    obtain ⟨h1, h2⟩ := List.append_inj' hsplit rfl
    have hxe : x = e := by simpa using h2
    rw [← h1]
    exact hx (hxe ▸ he)
  · subst hz
    have hsplit' : log ++ [x] = (before ++ e :: front) ++ [z] := by simpa using hsplit
    obtain ⟨h1, _⟩ := List.append_inj' hsplit' rfl
    exact hg before front e h1 he

theorem phonemize_espeak_engine_invariant (lib : Library W S P I M) (text voice : String)
    (p : Process W S M) (hinv : EspeakInvariant p) (h : p.eSpeakInitialized = true) :
    EspeakInvariant (phonemize_espeak_engine lib text voice p).2 := by
  obtain ⟨i, hi, hs⟩ := hinv.2 h
  refine ⟨EngineGuarded.append_one _ _ hinv.1 (fun _ => ⟨i, hi, hs⟩), fun _ => ?_⟩
  exact ⟨i, by simp [phonemize_espeak_engine, hi], hs⟩

theorem phonemize_espeak_invariant (lib : Library W S P I M) (text voice dataPath : String)
    (p : Process W S M) (hinv : EspeakInvariant p) :
    EspeakInvariant (phonemize_espeak lib text voice dataPath p).2 := by
  cases h : p.eSpeakInitialized with
  | true =>
    rw [phonemize_espeak_of_initialized lib text voice dataPath p h]
    exact phonemize_espeak_engine_invariant lib text voice p hinv h
  | false =>
    by_cases hr : (lib.espeak_Initialize dataPath p.world).1 < 0
    · rw [phonemize_espeak_of_init_failed lib text voice dataPath p h hr]
      refine ⟨EngineGuarded.append_one _ _ hinv.1 (fun hx => by simp [isEngineCall] at hx), ?_⟩
      intro hflag
      simp [h] at hflag
    · rw [phonemize_espeak_of_init_ok lib text voice dataPath p h hr]
      refine phonemize_espeak_engine_invariant lib text voice _ ⟨?_, fun _ => ?_⟩ rfl
      · exact EngineGuarded.append_one _ _ hinv.1 (fun hx => by simp [isEngineCall] at hx)
      · exact ⟨Event.espeak_Initialize dataPath (lib.espeak_Initialize dataPath p.world).1,
          by simp, by simpa [isSuccessfulInit] using hr⟩

theorem runEspeakCalls_invariant (lib : Library W S P I M) (calls : List EspeakCall) :
    ∀ p : Process W S M, EspeakInvariant p → EspeakInvariant (runEspeakCalls lib calls p).2 := by
  induction calls with
  | nil => intro p hinv; exact hinv
  | cons c cs ih =>
    intro p hinv
    exact ih _ (phonemize_espeak_invariant lib c.text c.voice c.dataPath p hinv)

/-- C10: after any sequence of `phonemize_espeak` calls from the initial
state, every call of the engine phonemizer in the log comes after a call of
`espeak_Initialize` that returned a non-negative result, and the flag is true
only if the log holds such a call.  In the state reached, a call that has to
initialise and gets a negative result fails with "Failed to initialize eSpeak",
logs the initialisation attempt and no engine call, and leaves the flag
false. -/
theorem engine_called_only_after_init (lib : Library W S P I M) (calls : List EspeakCall)
    (alphabet : StdMap String M) (w : W) :
    EngineGuarded (runEspeakCalls lib calls (Process.initial alphabet w : Process W S M)).2.log
    ∧ ((runEspeakCalls lib calls
          (Process.initial alphabet w : Process W S M)).2.eSpeakInitialized = true →
        ∃ i ∈ (runEspeakCalls lib calls (Process.initial alphabet w : Process W S M)).2.log,
          isSuccessfulInit i = true)
    ∧ ∀ c : EspeakCall,
        (runEspeakCalls lib calls
          (Process.initial alphabet w : Process W S M)).2.eSpeakInitialized = false →
        (lib.espeak_Initialize c.dataPath
          (runEspeakCalls lib calls (Process.initial alphabet w : Process W S M)).2.world).1 < 0 →
        (phonemize_espeak lib c.text c.voice c.dataPath
            (runEspeakCalls lib calls (Process.initial alphabet w : Process W S M)).2).1
          = Except.error (Exn.runtime_error "Failed to initialize eSpeak")
        ∧ (phonemize_espeak lib c.text c.voice c.dataPath
            (runEspeakCalls lib calls
              (Process.initial alphabet w : Process W S M)).2).2.eSpeakInitialized = false
        ∧ (phonemize_espeak lib c.text c.voice c.dataPath
            (runEspeakCalls lib calls (Process.initial alphabet w : Process W S M)).2).2.log
          = (runEspeakCalls lib calls (Process.initial alphabet w : Process W S M)).2.log
            ++ [Event.espeak_Initialize c.dataPath
                (lib.espeak_Initialize c.dataPath
                  (runEspeakCalls lib calls
                    (Process.initial alphabet w : Process W S M)).2.world).1] := by
  have hinit : EspeakInvariant (Process.initial alphabet w : Process W S M) :=
    ⟨EngineGuarded.nil, fun h => by simp [Process.initial] at h⟩
  obtain ⟨hg, hf⟩ := runEspeakCalls_invariant lib calls _ hinit
  refine ⟨hg, hf, ?_⟩
  intro c hflag hr
  rw [phonemize_espeak_of_init_failed lib c.text c.voice c.dataPath _ hflag hr]
  exact ⟨rfl, hflag, rfl⟩

/-- C10 on the stand-in library: after one failed call from the initial state,
a second call with the rejected data path fails again and the flag stays
false. -/
theorem engine_called_only_after_init_witness :
    (phonemize_espeak demoLibrary "b" "en-us" "/nowhere"
        (runEspeakCalls demoLibrary [{ text := "a", voice := "en-us", dataPath := "/nowhere" }]
          demoProcess).2).1
      = Except.error (Exn.runtime_error "Failed to initialize eSpeak")
    ∧ (phonemize_espeak demoLibrary "b" "en-us" "/nowhere"
        (runEspeakCalls demoLibrary [{ text := "a", voice := "en-us", dataPath := "/nowhere" }]
          demoProcess).2).2.eSpeakInitialized = false :=
  have h := (engine_called_only_after_init demoLibrary
    [{ text := "a", voice := "en-us", dataPath := "/nowhere" }] demoAlphabet 0).2.2
    { text := "b", voice := "en-us", dataPath := "/nowhere" } rfl (by decide)
  ⟨h.1, h.2.1⟩

end Espeak

end CttsPhonemize
